import Mathlib

/-!
Shallow embedding of the quiz-app client (`src/script.js`).

The script is a single-threaded, event-driven DOM controller.  We model:
* server responses as explicit inputs to each handler (a `fetch` that fails,
  either at transport or at JSON decoding, is `none` / a `fail` constructor);
* the DOM and the module-level mutable variables (`totalQuestions`,
  `correctAnswers`) as one `ClientState` record;
* deferred work (`setTimeout`, the tail calls to `checkClearCondition` /
  `checkStatus`) as an explicit list of `Effect`s returned by `submitAnswer`,
  with the 2000ms timeout callback embedded as `reenableCallback`.
-/

/-- A question as served by `GET /api/status/all_questions`. -/
structure Question where
  id : Nat
  is_public : Bool
  text : String
  options : List String
  image : Option String
deriving Repr, DecidableEq

/-- Response of `GET /api/status`. -/
structure StatusResp where
  total_questions : Nat
  unlocked_question : Nat
deriving Repr, DecidableEq

/-- Response of `POST /api/answer`. -/
structure AnswerResp where
  correct : Bool
deriving Repr, DecidableEq

/-- Successful payload of `GET /api/question/{id}`. -/
structure QuestionDetail where
  question : String
  options : List String
  image : Option String
deriving Repr, DecidableEq

/-- Outcome of the `GET /api/question/{id}` fetch in `loadQuestion`:
`ok` is a 2xx response with its decoded body, `err` is a non-ok response
carrying the server-supplied `error` string, `fail` is a transport or
decoding failure (the `catch` branch). -/
inductive QuestionResp where
  | ok (data : QuestionDetail)
  | err (msg : String)
  | fail
deriving Repr, DecidableEq

/-- A button of the question list (`.question-btn`), as built by
`updateQuestionList`.  `handler = some i` means `onclick = () => loadQuestion(i)`;
`handler = none` means no click handler was attached. -/
structure QBtn where
  qid : Nat
  label : String
  handler : Option Nat
  answered : Bool
  locked : Bool
  disabled : Bool
deriving Repr, DecidableEq

/-- An option button (`.option-btn`) inside the quiz panel.
`handler = some (i, o)` means `onclick = () => submitAnswer(i, o)`. -/
structure OptionBtn where
  label : String
  handler : Option (Nat × String)
  disabled : Bool
deriving Repr, DecidableEq

/-- The module-level mutable variables plus the DOM regions the script writes.
`quizHidden` / `clearHidden` are the `hidden` classes of `#quiz-container` and
`#clear-message`; `quizImage` is the `src` of the `#quiz-image` element when
present. -/
structure ClientState where
  totalQuestions : Nat
  correctAnswers : Finset Nat
  questionList : List QBtn
  quizHidden : Bool
  clearHidden : Bool
  questionText : String
  optionBtns : List OptionBtn
  resultText : String
  resultClass : String
  quizImage : Option String
deriving DecidableEq

/-- Deferred work triggered by `submitAnswer`: the `setTimeout` of the
incorrect branch, and the tail calls to `checkClearCondition` and
`checkStatus`. -/
inductive Effect where
  | scheduleReenable (delay : Nat)
  | evalClearCondition
  | pollStatus
deriving Repr, DecidableEq

/-- Is this effect the scheduling of the re-enable timeout? -/
def Effect.isReenable : Effect → Bool
  | Effect.scheduleReenable _ => true
  | _ => false

/-- The label `第{i}問`. -/
def qLabel (i : Nat) : String :=
  "第" ++ toString i ++ "問"

def alreadyAnsweredMsg : String := "この問題はすでに正解済みです。"
def loadErrorMsg : String := "問題の読み込み中にエラーが発生しました。"
def correctMsg : String := "正解！ 🎉"
def incorrectMsg : String := "不正解... 再挑戦してみてください。"
def submitErrorMsg : String := "回答の送信中にエラーが発生しました。"

/-- One list button, from the `questions.forEach` body of `updateQuestionList`:
public questions get a label, a `loadQuestion` handler and the `answered`
class when already correct; non-public questions get the `(非公開)` label,
the `locked` class, `disabled = true` and no handler. -/
def renderQuestionBtn (correct : Finset Nat) (q : Question) : QBtn :=
  if q.is_public then
    { qid := q.id, label := qLabel q.id, handler := some q.id,
      answered := decide (q.id ∈ correct), locked := false, disabled := false }
  else
    { qid := q.id, label := qLabel q.id ++ " (非公開)", handler := none,
      answered := false, locked := true, disabled := true }

/-- `questions.sort((a, b) => a.id - b.id)`: stable ascending sort by id. -/
def sortQuestions (qs : List Question) : List Question :=
  qs.mergeSort (fun a b => a.id ≤ b.id)

/-- `updateQuestionList`: clears `#question-list`, then (inside `try`) fetches
all questions, sorts them by id and rebuilds the buttons; on fetch/decoding
failure (`resp = none`) the `catch` only logs, leaving the list cleared. -/
def updateQuestionList (resp : Option (List Question)) (s : ClientState) :
    ClientState :=
  let s0 := { s with questionList := [] }
  match resp with
  | none => s0
  | some qs =>
      { s0 with
        questionList := (sortQuestions qs).map (renderQuestionBtn s0.correctAnswers) }

/-- `checkStatus`: fetches `/api/status`; on success stores
`data.total_questions` into the module variable and calls
`updateQuestionList`; on failure (`statusResp = none`) only logs. -/
def checkStatus (statusResp : Option StatusResp) (allQ : Option (List Question))
    (s : ClientState) : ClientState :=
  match statusResp with
  | none => s
  | some data =>
      updateQuestionList allQ { s with totalQuestions := data.total_questions }

/-- `loadQuestion(q_id)`.  The returned `Bool` records whether the
`/api/question/{q_id}` fetch was issued at all (`false` only on the
already-answered short circuit).  The four branches mirror the source:
short circuit, non-ok response, ok response, and the `catch`. -/
def loadQuestion (q_id : Nat) (resp : QuestionResp) (s : ClientState) :
    ClientState × Bool :=
  if q_id ∈ s.correctAnswers then
    ({ s with resultText := alreadyAnsweredMsg, resultClass := "",
              quizHidden := false, optionBtns := [], quizImage := none,
              questionText := qLabel q_id }, false)
  else
    match resp with
    | QuestionResp.err e =>
        ({ s with resultText := e, resultClass := "incorrect",
                  quizHidden := false, optionBtns := [],
                  questionText := qLabel q_id, quizImage := none }, true)
    | QuestionResp.ok data =>
        ({ s with
             quizImage := data.image.map (fun nm => "/static/images/" ++ nm),
             questionText := qLabel q_id ++ ": " ++ data.question,
             optionBtns := data.options.map
               (fun o => { label := o, handler := some (q_id, o), disabled := false }),
             resultText := "",
             quizHidden := false }, true)
    | QuestionResp.fail =>
        ({ s with resultText := loadErrorMsg, resultClass := "incorrect",
                  quizHidden := false, optionBtns := [],
                  questionText := qLabel q_id }, true)

/-- `document.querySelectorAll('.option-btn').forEach(btn => btn.disabled = true)`. -/
def disableOptions (s : ClientState) : ClientState :=
  { s with optionBtns := s.optionBtns.map (fun b => { b with disabled := true }) }

/-- The `setTimeout` callback of the incorrect branch: re-enables every
option button and clears the result message. -/
def reenableCallback (s : ClientState) : ClientState :=
  { s with optionBtns := s.optionBtns.map (fun b => { b with disabled := false }),
           resultText := "" }

/-- `submitAnswer(q_id, answer)`: on a response, option buttons are disabled,
then the verdict branch runs, then `checkClearCondition()` and `checkStatus()`
are called (returned here as effects, in source order).  On transport or
decoding failure (`resp = none`) the `catch` sets the generic failure notice
and nothing else happens — no disable, no timer, no tail calls. -/
def submitAnswer (q_id : Nat) (resp : Option AnswerResp) (s : ClientState) :
    ClientState × List Effect :=
  match resp with
  | none =>
      ({ s with resultText := submitErrorMsg, resultClass := "incorrect" }, [])
  | some data =>
      let s1 := disableOptions s
      if data.correct then
        ({ s1 with resultText := correctMsg, resultClass := "correct",
                   correctAnswers := insert q_id s1.correctAnswers },
         [Effect.evalClearCondition, Effect.pollStatus])
      else
        ({ s1 with resultText := incorrectMsg, resultClass := "incorrect" },
         [Effect.scheduleReenable 2000, Effect.evalClearCondition,
          Effect.pollStatus])

/-- `checkClearCondition`: fetches `/api/status` fresh; if the fetched
`unlocked_question` count is positive and equals `correctAnswers.size`,
hides the quiz panel and shows the clear banner, otherwise hides the banner.
On fetch failure the `catch` only logs. -/
def checkClearCondition (resp : Option StatusResp) (s : ClientState) :
    ClientState :=
  match resp with
  | none => s
  | some data =>
      if 0 < data.unlocked_question ∧
          s.correctAnswers.card = data.unlocked_question then
        { s with quizHidden := true, clearHidden := false }
      else
        { s with clearHidden := true }

/-- Every state-touching entry point of the script, with the server inputs it
consumes.  `timerFire` is the pending `setTimeout` callback firing. -/
inductive Op where
  | status (statusResp : Option StatusResp) (allQ : Option (List Question))
  | updateList (resp : Option (List Question))
  | load (q_id : Nat) (resp : QuestionResp)
  | submit (q_id : Nat) (resp : Option AnswerResp)
  | clearCond (resp : Option StatusResp)
  | timerFire

/-- Apply one operation to the client state. -/
def applyOp : Op → ClientState → ClientState
  | Op.status sr aq, s => checkStatus sr aq s
  | Op.updateList r, s => updateQuestionList r s
  | Op.load q r, s => (loadQuestion q r s).1
  | Op.submit q r, s => (submitAnswer q r s).1
  | Op.clearCond r, s => checkClearCondition r s
  | Op.timerFire, s => reenableCallback s

/-- Run a whole sequence of operations. -/
def runOps (ops : List Op) (s : ClientState) : ClientState :=
  ops.foldl (fun s op => applyOp op s) s

/-- The session-local facts of §3: the cached count and the correct-answer
set (the spec's `SessionState`). -/
def sessionOf (s : ClientState) : Nat × Finset Nat :=
  (s.totalQuestions, s.correctAnswers)

/-- An empty page-load state: counts zero, no answers, everything cleared,
clear banner hidden. -/
def initState : ClientState :=
  { totalQuestions := 0, correctAnswers := ∅, questionList := [],
    quizHidden := false, clearHidden := true, questionText := "",
    optionBtns := [], resultText := "", resultClass := "", quizImage := none }

/-- A small concrete state with one enabled option button, as after loading
a question. -/
def demoState : ClientState :=
  { totalQuestions := 3, correctAnswers := ∅, questionList := [],
    quizHidden := false, clearHidden := true, questionText := qLabel 1,
    optionBtns := [{ label := "A", handler := some (1, "A"), disabled := false }],
    resultText := "", resultClass := "", quizImage := none }

/-- A concrete state in which question 1 has already been answered. -/
def demoAnswered : ClientState :=
  { demoState with correctAnswers := {1} }

/-- A concrete state whose only correct answer is the id 5. -/
def demoFive : ClientState :=
  { demoState with correctAnswers := {5} }

/-- A concrete state with two correct answers. -/
def demoTwo : ClientState :=
  { demoState with correctAnswers := {1, 2} }

/-- The id of a rendered list button is the id of its question. -/
theorem renderQuestionBtn_qid (c : Finset Nat) (q : Question) :
    (renderQuestionBtn c q).qid = q.id := by
  unfold renderQuestionBtn
  split <;> rfl

/-- No operation of the script ever removes an id from `correctAnswers`. -/
theorem correct_answers_mono (op : Op) (s : ClientState) (i : Nat)
    (h : i ∈ s.correctAnswers) : i ∈ (applyOp op s).correctAnswers := by
  cases op with
  | status sr aq =>
      cases sr with
      | none => exact h
      | some d =>
          cases aq with
          | none => exact h
          | some qs => exact h
  | updateList r =>
      cases r with
      | none => exact h
      | some qs => exact h
  | load q r =>
      simp only [applyOp, loadQuestion]
      split
      · exact h
      · cases r <;> exact h
  | submit q r =>
      cases r with
      | none => exact h
      | some d =>
          simp only [applyOp, submitAnswer]
          by_cases hc : d.correct <;>
            simp [hc, disableOptions, Finset.mem_insert, h]
  | clearCond r =>
      cases r with
      | none => exact h
      | some d =>
          simp only [applyOp, checkClearCondition]
          split <;> exact h
  | timerFire => exact h

/-- Monotonicity extends to whole operation sequences. -/
theorem correct_answers_mono_runOps (ops : List Op) (s : ClientState) (i : Nat)
    (h : i ∈ s.correctAnswers) : i ∈ (runOps ops s).correctAnswers := by
  induction ops generalizing s with
  | nil => exact h
  | cons op ops ih => exact ih _ (correct_answers_mono op s i h)

/-- Claim C1: on every clear-condition evaluation that obtains a fresh status
response, the completion banner is shown (and the quiz panel hidden) exactly
when the fresh visible count is positive and equals the size of
`correctAnswers`; otherwise the banner is hidden; and the result is entirely
independent of the previously cached `totalQuestions` value. -/
theorem clear_condition_fresh_iff (resp : StatusResp) (s : ClientState) :
    ((checkClearCondition (some resp) s).clearHidden = false ↔
      (0 < resp.unlocked_question ∧
        s.correctAnswers.card = resp.unlocked_question)) ∧
    ((checkClearCondition (some resp) s).clearHidden = false →
      (checkClearCondition (some resp) s).quizHidden = true) ∧
    (∀ t : Nat,
      (checkClearCondition (some resp) { s with totalQuestions := t }).clearHidden =
        (checkClearCondition (some resp) s).clearHidden ∧
      (checkClearCondition (some resp) { s with totalQuestions := t }).quizHidden =
        (checkClearCondition (some resp) s).quizHidden) := by
  refine ⟨?_, ?_, ?_⟩
  · simp only [checkClearCondition]
    split
    · rename_i h
      simp [h]
    · rename_i h
      simp [h]
  · simp only [checkClearCondition]
    split
    · intro _
      rfl
    · intro h
      simp at h
  · intro t
    simp only [checkClearCondition]
    split <;> exact ⟨rfl, rfl⟩

/-- Witness for C1 at a concrete state where the condition holds. -/
theorem clear_condition_fresh_iff_witness :
    (checkClearCondition (some ⟨3, 2⟩) demoTwo).clearHidden = false ∧
    (checkClearCondition (some ⟨3, 2⟩) demoTwo).quizHidden = true := by
  have h := clear_condition_fresh_iff ⟨3, 2⟩ demoTwo
  have hb : (checkClearCondition (some ⟨3, 2⟩) demoTwo).clearHidden = false :=
    h.1.mpr (by constructor <;> decide)
  exact ⟨hb, h.2.1 hb⟩

/-- Counterexample to claim C2: at a concrete transport failure the generic
failure notice is set, yet neither the clear-condition evaluation nor the
status poll is invoked — the tail calls sit inside the `try` block and are
skipped by the `catch`. -/
theorem submit_always_resync_cx :
    (submitAnswer 1 none demoState).1.resultText = submitErrorMsg ∧
    Effect.evalClearCondition ∉ (submitAnswer 1 none demoState).2 ∧
    Effect.pollStatus ∉ (submitAnswer 1 none demoState).2 := by
  refine ⟨rfl, ?_, ?_⟩ <;> simp [submitAnswer]

/-- Claim C2 as amended: after a correct or incorrect verdict both the
clear-condition evaluation and the status poll are invoked, but after a
transport failure no effect at all is triggered. -/
theorem submit_resync_on_verdict (q : Nat) (resp : AnswerResp)
    (s : ClientState) :
    Effect.evalClearCondition ∈ (submitAnswer q (some resp) s).2 ∧
    Effect.pollStatus ∈ (submitAnswer q (some resp) s).2 ∧
    (submitAnswer q none s).2 = [] := by
  cases hc : resp.correct <;> simp [submitAnswer, hc]

/-- Claim C3: once a correct verdict adds `id` to `correctAnswers`, no
subsequent sequence of operations — polls reporting the question non-public
included — removes it. -/
theorem correct_verdict_permanent (i : Nat) (ans : AnswerResp)
    (s : ClientState) (h : ans.correct = true) (ops : List Op) :
    i ∈ (runOps ops (submitAnswer i (some ans) s).1).correctAnswers := by
  apply correct_answers_mono_runOps
  simp [submitAnswer, h, disableOptions]

/-- Witness for C3: question 1 is answered correctly, then a poll reports it
non-public and a clear-condition check runs; 1 is still recorded correct. -/
theorem correct_verdict_permanent_witness :
    1 ∈ (runOps
          [Op.status (some ⟨3, 0⟩) (some [⟨1, false, "", [], none⟩]),
           Op.clearCond (some ⟨3, 0⟩)]
          (submitAnswer 1 (some ⟨true⟩) demoState).1).correctAnswers :=
  correct_verdict_permanent 1 ⟨true⟩ demoState rfl
    [Op.status (some ⟨3, 0⟩) (some [⟨1, false, "", [], none⟩]),
     Op.clearCond (some ⟨3, 0⟩)]

/-- Claim C4: for an already-correct id, `loadQuestion` issues no fetch and
only shows the already-answered notice with the bare question label, the
panel unhidden and the options cleared. -/
theorem load_short_circuit (q_id : Nat) (resp : QuestionResp)
    (s : ClientState) (h : q_id ∈ s.correctAnswers) :
    loadQuestion q_id resp s =
      ({ s with resultText := alreadyAnsweredMsg, resultClass := "",
                quizHidden := false, optionBtns := [], quizImage := none,
                questionText := qLabel q_id }, false) := by
  simp [loadQuestion, h]

/-- Witness for C4 at the concrete state where question 1 is answered. -/
theorem load_short_circuit_witness :
    (loadQuestion 1 QuestionResp.fail demoAnswered).2 = false ∧
    (loadQuestion 1 QuestionResp.fail demoAnswered).1.resultText =
      alreadyAnsweredMsg := by
  rw [load_short_circuit 1 QuestionResp.fail demoAnswered (by decide)]
  exact ⟨rfl, rfl⟩

/-- Claim C5: an incorrect verdict disables every option button at once and
shows the failure notice; the submission schedules exactly one re-enable
timeout, with delay exactly 2000, and that callback re-enables every button
and clears the notice. -/
theorem incorrect_verdict_cooldown (q_id : Nat) (resp : AnswerResp)
    (s : ClientState) (h : resp.correct = false) :
    (∀ b ∈ (submitAnswer q_id (some resp) s).1.optionBtns,
        b.disabled = true) ∧
    (submitAnswer q_id (some resp) s).1.resultText = incorrectMsg ∧
    (submitAnswer q_id (some resp) s).2.filter Effect.isReenable =
      [Effect.scheduleReenable 2000] ∧
    (∀ b ∈ (reenableCallback (submitAnswer q_id (some resp) s).1).optionBtns,
        b.disabled = false) ∧
    (reenableCallback (submitAnswer q_id (some resp) s).1).resultText = "" := by
  refine ⟨?_, ?_, ?_, ?_, ?_⟩ <;>
    simp [submitAnswer, h, disableOptions, reenableCallback, Effect.isReenable,
          List.filter]

/-- Witness for C5 at the concrete one-button state. -/
theorem incorrect_verdict_cooldown_witness :
    (∀ b ∈ (submitAnswer 1 (some ⟨false⟩) demoState).1.optionBtns,
        b.disabled = true) ∧
    (submitAnswer 1 (some ⟨false⟩) demoState).2.filter Effect.isReenable =
      [Effect.scheduleReenable 2000] :=
  ⟨(incorrect_verdict_cooldown 1 ⟨false⟩ demoState rfl).1,
   (incorrect_verdict_cooldown 1 ⟨false⟩ demoState rfl).2.2.1⟩

/-- Claim C6: no transport, server-reported, or decoding failure mutates the
session state (cached count and `correctAnswers`): failed polls, failed list
fetches, failed question loads, failed submissions and failed clear-condition
checks all preserve it. -/
theorem failures_preserve_session (q : Nat) (e : String)
    (aq : Option (List Question)) (s : ClientState) :
    sessionOf (checkStatus none aq s) = sessionOf s ∧
    sessionOf (updateQuestionList none s) = sessionOf s ∧
    sessionOf (loadQuestion q (QuestionResp.err e) s).1 = sessionOf s ∧
    sessionOf (loadQuestion q QuestionResp.fail s).1 = sessionOf s ∧
    sessionOf (submitAnswer q none s).1 = sessionOf s ∧
    sessionOf (checkClearCondition none s) = sessionOf s := by
  refine ⟨rfl, rfl, ?_, ?_, rfl, rfl⟩ <;>
    · simp only [loadQuestion]
      split <;> rfl

/-- Counterexample to claim C7: at a concrete transport failure the generic
notice is shown, yet the option button is still enabled — disabling happens
only after a response arrives, so a response-less failure never disables. -/
theorem submit_failure_disabled_cx :
    (submitAnswer 1 none demoState).1.resultText = submitErrorMsg ∧
    ¬ (∀ b ∈ (submitAnswer 1 none demoState).1.optionBtns,
        b.disabled = true) := by
  constructor
  · rfl
  · intro hAll
    have hmem : ({ label := "A", handler := some (1, "A"), disabled := false } :
        OptionBtn) ∈ (submitAnswer 1 none demoState).1.optionBtns := by
      simp [submitAnswer, demoState]
    simpa using hAll _ hmem

/-- Claim C7 as amended: on a transport failure `submitAnswer` displays the
generic submission-failure notice and leaves the option buttons exactly as
they were — in particular it does not disable them, since the disabling step
runs only once a response has arrived. -/
theorem submit_failure_notice (q : Nat) (s : ClientState) :
    (submitAnswer q none s).1.resultText = submitErrorMsg ∧
    (submitAnswer q none s).1.resultClass = "incorrect" ∧
    (submitAnswer q none s).1.optionBtns = s.optionBtns ∧
    (submitAnswer q none s).2 = [] :=
  ⟨rfl, rfl, rfl, rfl⟩

/-- Claim C8: the rendered list holds exactly one button per received
question (a permutation of the per-question rendering), in ascending id
order; non-public questions get no handler and are locked/disabled; public
questions get a `loadQuestion` handler and the answered mark exactly when
their id is in `correctAnswers`. -/
theorem renderer_contract (qs : List Question) (s : ClientState) :
    ((updateQuestionList (some qs) s).questionList).Perm
        (qs.map (renderQuestionBtn s.correctAnswers)) ∧
    List.Pairwise (fun a b => a.qid ≤ b.qid)
        ((updateQuestionList (some qs) s).questionList) ∧
    (∀ q : Question, q.is_public = false →
        (renderQuestionBtn s.correctAnswers q).handler = none ∧
        (renderQuestionBtn s.correctAnswers q).locked = true ∧
        (renderQuestionBtn s.correctAnswers q).disabled = true) ∧
    (∀ q : Question, q.is_public = true →
        (renderQuestionBtn s.correctAnswers q).handler = some q.id ∧
        ((renderQuestionBtn s.correctAnswers q).answered = true ↔
          q.id ∈ s.correctAnswers) ∧
        (renderQuestionBtn s.correctAnswers q).locked = false ∧
        (renderQuestionBtn s.correctAnswers q).disabled = false) := by
  refine ⟨?_, ?_, ?_, ?_⟩
  · simp only [updateQuestionList, sortQuestions]
    exact (List.mergeSort_perm qs _).map _
  · simp only [updateQuestionList, sortQuestions]
    have hs := @List.sorted_mergeSort Question
      (fun a b : Question => decide (a.id ≤ b.id))
      (by
        intro a b c hab hbc
        simp only [decide_eq_true_eq] at hab hbc ⊢
        omega)
      (by
        intro a b
        simp [Nat.le_total])
      qs
    refine List.Pairwise.map _ ?_ hs
    intro a b hab
    rw [renderQuestionBtn_qid, renderQuestionBtn_qid]
    simpa using hab
  · intro q hq
    simp [renderQuestionBtn, hq]
  · intro q hq
    simp [renderQuestionBtn, hq]

/-- Witness for C8: one public and one non-public question rendered against
the empty answer set. -/
theorem renderer_contract_witness :
    (renderQuestionBtn demoState.correctAnswers ⟨1, false, "", [], none⟩).handler
        = none ∧
    (renderQuestionBtn demoState.correctAnswers ⟨2, true, "", [], none⟩).handler
        = some 2 := by
  have h := renderer_contract
    [⟨2, true, "", [], none⟩, ⟨1, false, "", [], none⟩] demoState
  exact ⟨(h.2.2.1 ⟨1, false, "", [], none⟩ rfl).1,
         (h.2.2.2 ⟨2, true, "", [], none⟩ rfl).1⟩

/-- Claim C9: every branch of `loadQuestion` — short circuit, ok response,
server-reported error and transport/decoding failure — leaves the question
panel unhidden. -/
theorem load_panel_shown (q : Nat) (resp : QuestionResp) (s : ClientState) :
    (loadQuestion q resp s).1.quizHidden = false := by
  simp only [loadQuestion]
  split
  · rfl
  · split <;> rfl

/-- Claim C10: the clear check compares only cardinalities: whenever the
fresh visible count is positive and equals `correctAnswers.card`, the banner
is shown, even when some currently public question was never answered and
some recorded answer is for a question no longer public. -/
theorem clear_counts_only (resp : StatusResp) (s : ClientState)
    (qs : List Question)
    (h1 : 0 < resp.unlocked_question)
    (h2 : s.correctAnswers.card = resp.unlocked_question)
    (h3 : ∃ q ∈ qs, q.is_public = true ∧ q.id ∉ s.correctAnswers)
    (h4 : ∃ i ∈ s.correctAnswers, ∀ q ∈ qs, q.id = i → q.is_public = false) :
    (checkClearCondition (some resp) s).clearHidden = false ∧
    (checkClearCondition (some resp) s).quizHidden = true := by
  simp only [checkClearCondition]
  rw [if_pos ⟨h1, h2⟩]
  exact ⟨rfl, rfl⟩

/-- Witness for C10: the session answered only id 5, the server reports one
visible question (id 2, never answered) while question 5 is non-public; the
banner is shown regardless. -/
theorem clear_counts_only_witness :
    (checkClearCondition (some ⟨2, 1⟩) demoFive).clearHidden = false ∧
    (checkClearCondition (some ⟨2, 1⟩) demoFive).quizHidden = true :=
  clear_counts_only ⟨2, 1⟩ demoFive
    [⟨2, true, "", [], none⟩, ⟨5, false, "", [], none⟩]
    (by decide) (by decide) (by decide) (by decide)
